import Mathlib

/-!
Verification of the ETL pipeline in `etl.py` (Data Modeling with Postgres).

The source is shallowly embedded: each pandas dataframe computed by the script
becomes an explicit Lean list, each `cur.execute` becomes an element of an
operation trace, and the directory walk of `process_data` becomes a recursive
function over a directory tree.  Millisecond timestamps are natural numbers;
SQL floating-point columns (`duration`, `length`, latitude, longitude) are
modelled as rationals, which is adequate because the script only copies and
compares these values for exact equality, never computes with them.
-/

set_option autoImplicit false

namespace ETL

/-- One parsed line of a log file (`pd.read_json(filepath, lines=True)` in
`process_log_file`).  Fields are the columns the script touches. -/
structure LogEvent where
  page : String
  ts : Nat
  userId : String
  firstName : String
  lastName : String
  gender : String
  level : String
  song : String
  artist : String
  length : Rat
  sessionId : Nat
  location : String
  userAgent : String
  deriving Repr, DecidableEq

/-- One parsed record of a song file (`pd.read_json(filepath, dtype=..., lines=True)`
in `process_song_file`). -/
structure SongRecord where
  song_id : String
  title : String
  artist_id : String
  year : Int
  duration : Rat
  artist_name : String
  artist_location : Option String
  artist_latitude : Option Rat
  artist_longitude : Option Rat
  deriving Repr, DecidableEq

/-- A row of the `songs` table in the store that `song_select` queries. -/
structure SongRow where
  song_id : String
  title : String
  artist_id : String
  year : Int
  duration : Rat
  deriving Repr, DecidableEq

/-- A row of the `artists` table in the store that `song_select` queries. -/
structure ArtistRow where
  artist_id : String
  name : String
  location : Option String
  latitude : Option Rat
  longitude : Option Rat
  deriving Repr, DecidableEq

/-- The relational store visible to the lookup query: the `songs` and
`artists` tables. -/
structure Store where
  songs : List SongRow
  artists : List ArtistRow
  deriving Repr, DecidableEq

/-- A row inserted into the `time` table: `start_time` is the converted
timestamp (nanoseconds since the epoch, the value of a pandas `Timestamp`),
followed by the six derived columns of `time_data`. -/
structure TimeRow where
  start_time : Nat
  hour : Nat
  day : Nat
  week : Nat
  month : Nat
  year : Nat
  weekday : Nat
  deriving Repr, DecidableEq

/-- A row inserted into the `users` table (`user_df` in `process_log_file`). -/
structure UserRow where
  userId : String
  firstName : String
  lastName : String
  gender : String
  level : String
  deriving Repr, DecidableEq

/-- A row inserted into the `songplays` table (`songplay_data` in
`process_log_file`). -/
structure SongplayRow where
  songplay_id : Nat
  start_time : Nat
  userId : String
  level : String
  song_id : Option String
  artist_id : Option String
  sessionId : Nat
  location : String
  userAgent : String
  deriving Repr, DecidableEq

/-- One statement executed against the store by the extractors: the five
parameterized inserts plus the `song_select` lookup (whose fetched result we
record alongside it). -/
inductive Op where
  | insertSong (song_id : String) (title : String) (artist_id : String)
      (year : Int) (duration : Rat)
  | insertArtist (artist_id : String) (name : String) (location : Option String)
      (latitude : Option Rat) (longitude : Option Rat)
  | insertTime (row : TimeRow)
  | insertUser (row : UserRow)
  | selectSong (song : String) (artist : String) (length : Rat)
      (result : Option (String × String))
  | insertSongplay (row : SongplayRow)
  deriving Repr, DecidableEq

/-- Whether an executed statement is an insert (everything except the
`song_select` lookup). -/
def Op.isInsert : Op → Bool
  | Op.selectSong _ _ _ _ => false
  | _ => true

/-! ### Calendar arithmetic

`process_log_file` converts the millisecond epoch timestamp with
`pd.to_datetime(df["ts"], unit='ms')` and reads the accessors `hour`, `day`,
`week` (ISO week number), `month`, `year` and `weekday` (Monday = 0) from the
resulting UTC datetimes.  We embed that library behaviour with the standard
proleptic-Gregorian civil-calendar arithmetic on nonnegative timestamps. -/

/-- Milliseconds per day. -/
def msPerDay : Nat := 86400000

/-- Days since 1970-01-01 of the day containing the given millisecond
timestamp. -/
def msToDays (ms : Nat) : Nat := ms / msPerDay

/-- A pandas `Timestamp` is nanoseconds since the epoch; `unit='ms'` scales
by one million. -/
def toDatetimeNs (ms : Nat) : Nat := ms * 1000000

/-- The `hour` accessor: hour of day, from the millisecond timestamp. -/
def msHour (ms : Nat) : Nat := ms % msPerDay / 3600000

/-- A civil (proleptic Gregorian) calendar date. -/
structure CivilDate where
  year : Nat
  month : Nat
  day : Nat
  deriving Repr, DecidableEq

/-- Civil date from days since 1970-01-01 (valid for dates from year 0 on),
the standard era-based conversion used by calendar libraries. -/
def civilFromDays (z : Nat) : CivilDate :=
  let z' := z + 719468
  let era := z' / 146097
  let doe := z' % 146097
  let yoe := (doe - doe / 1460 + doe / 36524 - doe / 146096) / 365
  let y := yoe + era * 400
  let doy := doe - (365 * yoe + yoe / 4 - yoe / 100)
  let mp := (5 * doy + 2) / 153
  let d := doy - (153 * mp + 2) / 5 + 1
  let m := if mp < 10 then mp + 3 else mp - 9
  if m ≤ 2 then ⟨y + 1, m, d⟩ else ⟨y, m, d⟩

/-- Days since 1970-01-01 of a civil date (valid for dates from 1970 on),
the inverse era-based conversion. -/
def daysFromCivil (y m d : Nat) : Nat :=
  let y' := if m ≤ 2 then y - 1 else y
  let era := y' / 400
  let yoe := y' % 400
  let doy := (153 * (if 2 < m then m - 3 else m + 9) + 2) / 5 + d - 1
  let doe := yoe * 365 + yoe / 4 - yoe / 100 + doy
  era * 146097 + doe - 719468

/-- The `weekday` accessor: day of week with Monday = 0, from days since the
epoch (1970-01-01 was a Thursday). -/
def weekdayFromDays (z : Nat) : Nat := (z + 3) % 7

/-- ISO weekday (Monday = 1 .. Sunday = 7) from days since the epoch. -/
def isoWeekday (z : Nat) : Nat := (z + 3) % 7 + 1

/-- The `week` accessor: ISO-8601 week number, computed as the week of the
Thursday of the current week, numbered within that Thursday's year. -/
def isoWeekFromDays (z : Nat) : Nat :=
  let thursday := z + 4 - isoWeekday z
  let y := (civilFromDays thursday).year
  let jan1 := daysFromCivil y 1 1
  (thursday - jan1) / 7 + 1

/-- The full decomposition of one millisecond timestamp into the `time_data`
tuple: converted timestamp, hour, day, ISO week, month, year, weekday. -/
def timeEntityOfMs (ms : Nat) : TimeRow :=
  { start_time := toDatetimeNs ms
    hour := msHour ms
    day := (civilFromDays (msToDays ms)).day
    week := isoWeekFromDays (msToDays ms)
    month := (civilFromDays (msToDays ms)).month
    year := (civilFromDays (msToDays ms)).year
    weekday := weekdayFromDays (msToDays ms) }

/-! ### The `song_select` lookup -/

/-- The join of `songs` and `artists` on the artist identifier, the table
`song_select` selects from. -/
def songArtistJoin (st : Store) : List (SongRow × ArtistRow) :=
  st.songs.flatMap fun s =>
    (st.artists.filter fun a => a.artist_id = s.artist_id).map fun a => (s, a)

/-- Modelled from the spec: the `song_select` query of `sql_queries.py`, which
is not part of the source tree (only its caller `process_log_file` is).  Per
the spec it resolves a Song+Artist pair by exact match on
(song title = event's song field, artist name = event's artist field, song
duration = event's length field), with no tolerance; `cur.fetchone()` takes
the first matching row, returning the pair of identifiers. -/
def song_select (st : Store) (song artist : String) (length : Rat) :
    Option (String × String) :=
  (((songArtistJoin st).filter fun p =>
      p.1.title = song ∧ p.2.name = artist ∧ p.1.duration = length).head?).map
    fun p => (p.1.song_id, p.2.artist_id)

/-- The `if results: songid, artistid = results / else: None, None` branch of
`process_log_file`. -/
def resolve (st : Store) (e : LogEvent) : Option String × Option String :=
  match song_select st e.song e.artist e.length with
  | some (sid, aid) => (some sid, some aid)
  | none => (none, none)

/-! ### The song file extractor -/

/-- `process_song_file`: the parsed dataframe is the list of records.  With
zero records, `df[...].values[0]` has no row 0 and the call raises before any
insert is executed; otherwise one `songs` insert and one `artists` insert are
issued, both projected verbatim from the first record. -/
def process_song_file (records : List SongRecord) : Except String (List Op) :=
  match records with
  | [] => Except.error "IndexError: no record to index"
  | r :: _ =>
    Except.ok
      [Op.insertSong r.song_id r.title r.artist_id r.year r.duration,
       Op.insertArtist r.artist_id r.artist_name r.artist_location
         r.artist_latitude r.artist_longitude]

/-! ### The log file extractor -/

/-- The dataframe with its integer index: `pd.read_json(..., lines=True)`
labels the rows 0, 1, 2, ... and boolean-mask filtering keeps the original
labels, which `iterrows` later yields. -/
def idxFrom {α : Type} (i : Nat) : List α → List (Nat × α)
  | [] => []
  | a :: rest => (i, a) :: idxFrom (i + 1) rest

/-- The filter `df = df[df['page'] == 'NextSong']` applied to the parsed
events, without the index. -/
def retained (events : List LogEvent) : List LogEvent :=
  events.filter fun e => e.page = "NextSong"

/-- The filtered dataframe with its original index labels. -/
def retainedIdx (events : List LogEvent) : List (Nat × LogEvent) :=
  (idxFrom 0 events).filter fun p => p.2.page = "NextSong"

/-- Row-wise zip of the seven column series of `time_data`, mirroring
`pd.DataFrame.from_dict(dict(zip(column_labels, time_data)))`. -/
def zipTimeColumns :
    List Nat → List Nat → List Nat → List Nat → List Nat → List Nat →
      List Nat → List TimeRow
  | t :: ts, h :: hs, d :: ds, w :: ws, m :: ms, y :: ys, wd :: wds =>
    ⟨t, h, d, w, m, y, wd⟩ :: zipTimeColumns ts hs ds ws ms ys wds
  | _, _, _, _, _, _, _ => []

/-- `time_df`: the seven columns of `time_data` — the converted series `t`
and its `dt` accessors — reassembled into rows. -/
def time_rows (events : List LogEvent) : List TimeRow :=
  zipTimeColumns
    ((retained events).map fun e => toDatetimeNs e.ts)
    ((retained events).map fun e => msHour e.ts)
    ((retained events).map fun e => (civilFromDays (msToDays e.ts)).day)
    ((retained events).map fun e => isoWeekFromDays (msToDays e.ts))
    ((retained events).map fun e => (civilFromDays (msToDays e.ts)).month)
    ((retained events).map fun e => (civilFromDays (msToDays e.ts)).year)
    ((retained events).map fun e => weekdayFromDays (msToDays e.ts))

/-- `user_df = df[["userId", "firstName", "lastName", "gender", "level"]]`. -/
def user_rows (events : List LogEvent) : List UserRow :=
  (retained events).map fun e =>
    ⟨e.userId, e.firstName, e.lastName, e.gender, e.level⟩

/-- The `songplay_data` row built for one indexed retained event: the first
component is the row's original dataframe index label, so the identifier is
`index + 1`. -/
def songplayRowOf (st : Store) (p : Nat × LogEvent) : SongplayRow :=
  { songplay_id := p.1 + 1
    start_time := toDatetimeNs p.2.ts
    userId := p.2.userId
    level := p.2.level
    song_id := (resolve st p.2).1
    artist_id := (resolve st p.2).2
    sessionId := p.2.sessionId
    location := p.2.location
    userAgent := p.2.userAgent }

/-- All `songplays` rows inserted for one log file, in iteration order. -/
def songplay_rows (st : Store) (events : List LogEvent) : List SongplayRow :=
  (retainedIdx events).map (songplayRowOf st)

/-- `process_log_file`, statement trace: the statements executed for one log
file that parsed to at least one event — the `time` inserts, then the
`users` inserts, then per retained row a `song_select` lookup followed by
the `songplays` insert.  (With at least one parsed record the dataframe has
all its columns, so every access succeeds even when the page filter leaves
zero rows; the zero-record error path is `process_log_file_run`.) -/
def process_log_file (st : Store) (events : List LogEvent) : List Op :=
  (time_rows events).map Op.insertTime ++
    (user_rows events).map Op.insertUser ++
    (retainedIdx events).flatMap fun p =>
      [Op.selectSong p.2.song p.2.artist p.2.length
         (song_select st p.2.song p.2.artist p.2.length),
       Op.insertSongplay (songplayRowOf st p)]

/-- The whole `process_log_file` call, error path included.  A log file with
zero records parses (`pd.read_json(..., lines=True)`) to an empty dataframe
with no columns, so the very first column access — the page filter of line
71, `df[df['page'] == 'NextSong']` — raises a KeyError before any statement
is executed.  With one or more parsed records every column exists and the
call runs the full statement trace. -/
def process_log_file_run (st : Store) (events : List LogEvent) :
    Except String (List Op) :=
  match events with
  | [] => Except.error "KeyError: page"
  | e :: rest => Except.ok (process_log_file st (e :: rest))

/-! ### File discovery and the loader -/

/-- A directory: its files and its named subdirectories, both in listing
order. -/
inductive DirTree where
  | node (files : List String) (subdirs : List (String × DirTree))
  deriving Repr

/-- The entries a `glob.glob(os.path.join(root, '*.json'))` call returns from
one directory listing: non-hidden names ending in `.json`. -/
def globJson (files : List String) : List String :=
  files.filter fun f => f.endsWith ".json" && !f.startsWith "."

mutual

/-- `os.walk` on an existing directory: the top-down sequence of
(root, subdirectory names, file names) triples. -/
def walkTree (path : String) : DirTree → List (String × List String × List String)
  | DirTree.node files subdirs =>
    (path, subdirs.map Prod.fst, files) :: walkSubs path subdirs

/-- The recursive part of `walkTree` over the subdirectory list. -/
def walkSubs (path : String) :
    List (String × DirTree) → List (String × List String × List String)
  | [] => []
  | (n, t) :: rest => walkTree (path ++ "/" ++ n) t ++ walkSubs path rest

end

/-- `os.walk(filepath)`.  The filesystem is given as the directory tree at
`filepath` when that path exists, `none` when it does not.  With its default
`onerror=None`, `os.walk` silently swallows the listing error of a
nonexistent root and yields no triples at all. -/
def os_walk (fs : Option DirTree) (path : String) :
    List (String × List String × List String) :=
  match fs with
  | none => []
  | some t => walkTree path t

/-- The `all_files` accumulation of `process_data`: for every walked
directory, the absolute paths of its `*.json` files. -/
def discoverFiles (fs : Option DirTree) (filepath : String) : List String :=
  (os_walk fs filepath).flatMap fun t =>
    (globJson t.2.2).map fun f => t.1 ++ "/" ++ f

/-- One observable step of the loader: a console line, the invocation of the
extractor on a file, an executed statement, or a transaction commit. -/
inductive Output where
  | foundLine (s : String)
  | invoke (file : String)
  | exec (op : Op)
  | commit
  | progressLine (s : String)
  deriving Repr, DecidableEq

/-- The text of the progress print for file number `i` of `num`. -/
def progressMsg (i num : Nat) : String :=
  toString i ++ "/" ++ toString num ++ " files processed."

/-- The `for i, datafile in enumerate(all_files, 1)` loop of `process_data`:
invoke the extractor, execute its statements, commit, print progress; an
extractor failure aborts the loop at once (the exception propagates). -/
def loaderLoop (func : String → Except String (List Op)) (num : Nat) :
    List (Nat × String) → List Output × Option String
  | [] => ([], none)
  | p :: rest =>
    match func p.2 with
    | Except.error e => ([Output.invoke p.2], some e)
    | Except.ok ops =>
      let r := loaderLoop func num rest
      (Output.invoke p.2 ::
         (ops.map Output.exec ++
           Output.commit :: Output.progressLine (progressMsg p.1 num) :: r.1),
       r.2)

/-- `process_data`: discover the files, print the found-count line, then run
the loader loop over the files enumerated from 1.  The result is the
observable trace and the propagated failure, if any. -/
def process_data (fs : Option DirTree) (filepath : String)
    (func : String → Except String (List Op)) : List Output × Option String :=
  let all_files := discoverFiles fs filepath
  let num_files := all_files.length
  let r := loaderLoop func num_files (idxFrom 1 all_files)
  (Output.foundLine (toString num_files ++ " files found in " ++ filepath) :: r.1,
   r.2)

/-! ### Specification-side descriptions used to state the claims -/

/-- The 0-based positions, among all parsed events of a file, of the events
retained by the page filter — a spec-side description of the dataframe index
labels that survive filtering. -/
def retainedPositions (i : Nat) : List LogEvent → List Nat
  | [] => []
  | e :: rest =>
    if e.page = "NextSong" then i :: retainedPositions (i + 1) rest
    else retainedPositions (i + 1) rest

/-- The observable block the loader produces for one successfully processed
file: invocation, the executed statements, the commit, the progress line. -/
def okTrace (func : String → Except String (List Op)) (num : Nat)
    (p : Nat × String) : List Output :=
  Output.invoke p.2 ::
    ((match func p.2 with
      | Except.ok ops => ops.map Output.exec
      | Except.error _ => []) ++
      Output.commit :: Output.progressLine (progressMsg p.1 num) :: [])

/-- Projects a `users` insert out of a trace element. -/
def userOf : Op → Option UserRow
  | Op.insertUser r => some r
  | _ => none

/-! ### Concrete fixtures for witnesses and counterexamples -/

/-- A store with no songs and no artists. -/
def exStore : Store := ⟨[], []⟩

/-- A store holding the song and artist of the spec's end-to-end scenario. -/
def exStoreMatch : Store :=
  ⟨[⟨"S1", "T", "A1", 2000, 200⟩],
   [⟨"A1", "Art", some "NY", some 40, some (-74)⟩]⟩

/-- A log event whose page is not `NextSong`. -/
def exEventHome : LogEvent :=
  { page := "Home"
    ts := 1541207073796
    userId := "8"
    firstName := "Kaylee"
    lastName := "Summers"
    gender := "F"
    level := "free"
    song := ""
    artist := ""
    length := 0
    sessionId := 139
    location := "Phoenix-Mesa-Scottsdale, AZ"
    userAgent := "Mozilla/5.0" }

/-- A retained `NextSong` event matching the stored song of `exStoreMatch`. -/
def exEventNext : LogEvent :=
  { page := "NextSong"
    ts := 1541207073796
    userId := "8"
    firstName := "Kaylee"
    lastName := "Summers"
    gender := "F"
    level := "free"
    song := "T"
    artist := "Art"
    length := 200
    sessionId := 139
    location := "Phoenix-Mesa-Scottsdale, AZ"
    userAgent := "Mozilla/5.0" }

/-- The song record of the spec's end-to-end scenario. -/
def exSongRecord : SongRecord :=
  { song_id := "S1"
    title := "T"
    artist_id := "A1"
    year := 2000
    duration := 200
    artist_name := "Art"
    artist_location := some "NY"
    artist_latitude := some 40
    artist_longitude := some (-74) }

/-! ### Helper lemmas -/

theorem mem_idxFrom_snd {α : Type} {p : Nat × α} {i : Nat} {l : List α}
    (h : p ∈ idxFrom i l) : p.2 ∈ l := by
  induction l generalizing i with
  | nil => simp [idxFrom] at h
  | cons a rest ih =>
    simp only [idxFrom, List.mem_cons] at h
    rcases h with h | h
    · subst h; exact List.mem_cons_self _ _
    · exact List.mem_cons_of_mem _ (ih h)

theorem idxFrom_filter_snd (i : Nat) (events : List LogEvent) :
    (((idxFrom i events).filter fun p => p.2.page = "NextSong").map Prod.snd)
      = retained events := by
  induction events generalizing i with
  | nil => simp [idxFrom, retained]
  | cons e rest ih =>
    by_cases h : e.page = "NextSong" <;>
      simp [idxFrom, retained, List.filter_cons, h, ih (i + 1)]

theorem idxFrom_filter_fst (i : Nat) (events : List LogEvent) :
    (((idxFrom i events).filter fun p => p.2.page = "NextSong").map Prod.fst)
      = retainedPositions i events := by
  induction events generalizing i with
  | nil => simp [idxFrom, retainedPositions]
  | cons e rest ih =>
    by_cases h : e.page = "NextSong" <;>
      simp [idxFrom, retainedPositions, List.filter_cons, h, ih (i + 1)]

theorem retainedIdx_map_snd (events : List LogEvent) :
    (retainedIdx events).map Prod.snd = retained events :=
  idxFrom_filter_snd 0 events

theorem retainedIdx_map {β : Type} (f : LogEvent → β) (events : List LogEvent) :
    ((retainedIdx events).map fun p => f p.2) = (retained events).map f := by
  rw [← retainedIdx_map_snd, List.map_map]
  rfl

theorem retainedIdx_length (events : List LogEvent) :
    (retainedIdx events).length = (retained events).length := by
  rw [← retainedIdx_map_snd, List.length_map]

theorem zipTimeColumns_map {α : Type} (l : List α)
    (f1 f2 f3 f4 f5 f6 f7 : α → Nat) :
    zipTimeColumns (l.map f1) (l.map f2) (l.map f3) (l.map f4) (l.map f5)
        (l.map f6) (l.map f7)
      = l.map fun a => ⟨f1 a, f2 a, f3 a, f4 a, f5 a, f6 a, f7 a⟩ := by
  induction l with
  | nil => rfl
  | cons a rest ih => simp [zipTimeColumns, ih]

theorem time_rows_eq (events : List LogEvent) :
    time_rows events = (retained events).map fun e => timeEntityOfMs e.ts := by
  unfold time_rows
  rw [zipTimeColumns_map]
  rfl

theorem songplay_rows_length (st : Store) (events : List LogEvent) :
    (songplay_rows st events).length = (retained events).length := by
  unfold songplay_rows
  rw [List.length_map, retainedIdx_length]

theorem isSome_map_head? {α β : Type} (f : α → β) (l : List α) :
    ((l.head?).map f).isSome = (l.head?).isSome := by
  cases l <;> rfl

theorem head?_filter_isSome {α : Type} (p : α → Bool) (l : List α) :
    ((l.filter p).head?).isSome = true ↔ ∃ x, x ∈ l ∧ p x = true := by
  constructor
  · intro h
    cases hf : l.filter p with
    | nil => rw [hf] at h; simp at h
    | cons hd tl =>
      have hmem : hd ∈ l.filter p := by
        rw [hf]; exact List.mem_cons_self _ _
      rw [List.mem_filter] at hmem
      exact ⟨hd, hmem.1, hmem.2⟩
  · rintro ⟨x, hx, hp⟩
    cases hf : l.filter p with
    | nil =>
      rw [List.filter_eq_nil_iff] at hf
      exact absurd hp (hf x hx)
    | cons hd tl => simp

theorem mem_songArtistJoin (st : Store) (p : SongRow × ArtistRow) :
    p ∈ songArtistJoin st ↔
      p.1 ∈ st.songs ∧ p.2 ∈ st.artists ∧ p.2.artist_id = p.1.artist_id := by
  simp only [songArtistJoin, List.mem_flatMap, List.mem_map, List.mem_filter,
    decide_eq_true_eq]
  constructor
  · rintro ⟨s, hs, a, ⟨ha, haid⟩, rfl⟩
    exact ⟨hs, ha, haid⟩
  · rintro ⟨h1, h2, h3⟩
    exact ⟨p.1, h1, p.2, ⟨h2, h3⟩, rfl⟩

theorem song_select_isSome_iff (st : Store) (song artist : String)
    (length : Rat) :
    (song_select st song artist length).isSome = true ↔
      ∃ s a, s ∈ st.songs ∧ a ∈ st.artists ∧ a.artist_id = s.artist_id ∧
        s.title = song ∧ a.name = artist ∧ s.duration = length := by
  unfold song_select
  rw [isSome_map_head?, head?_filter_isSome]
  constructor
  · rintro ⟨x, hx, hp⟩
    rw [mem_songArtistJoin] at hx
    simp only [decide_eq_true_eq] at hp
    exact ⟨x.1, x.2, hx.1, hx.2.1, hx.2.2, hp.1, hp.2.1, hp.2.2⟩
  · rintro ⟨s, a, h1, h2, h3, h4, h5, h6⟩
    refine ⟨(s, a), ?_, ?_⟩
    · rw [mem_songArtistJoin]; exact ⟨h1, h2, h3⟩
    · simp [h4, h5, h6]

theorem resolve_isSome (st : Store) (e : LogEvent) :
    (resolve st e).1.isSome = (song_select st e.song e.artist e.length).isSome
      ∧ (resolve st e).2.isSome
          = (song_select st e.song e.artist e.length).isSome := by
  unfold resolve
  rcases song_select st e.song e.artist e.length with _ | ⟨sid, aid⟩ <;> simp

theorem resolve_of_none (st : Store) (e : LogEvent)
    (h : song_select st e.song e.artist e.length = none) :
    resolve st e = (none, none) := by
  unfold resolve
  rw [h]

theorem filter_isInsert_pairs (st : Store) (l : List (Nat × LogEvent)) :
    ((l.flatMap fun p =>
        [Op.selectSong p.2.song p.2.artist p.2.length
           (song_select st p.2.song p.2.artist p.2.length),
         Op.insertSongplay (songplayRowOf st p)]).filter Op.isInsert).length
      = l.length := by
  induction l with
  | nil => rfl
  | cons p rest ih =>
    simp [List.flatMap_cons, List.filter_append, List.filter_cons, Op.isInsert,
      ih]

theorem filterMap_userOf_pairs (st : Store) (l : List (Nat × LogEvent)) :
    (l.flatMap fun p =>
        [Op.selectSong p.2.song p.2.artist p.2.length
           (song_select st p.2.song p.2.artist p.2.length),
         Op.insertSongplay (songplayRowOf st p)]).filterMap userOf = [] := by
  induction l with
  | nil => rfl
  | cons p rest ih =>
    simp [List.flatMap_cons, List.filterMap_append, List.filterMap, userOf, ih]

theorem filterMap_userOf_trace (st : Store) (events : List LogEvent) :
    (process_log_file st events).filterMap userOf = user_rows events := by
  unfold process_log_file
  rw [List.filterMap_append, List.filterMap_append, List.filterMap_map,
    List.filterMap_map, filterMap_userOf_pairs]
  have h1 : (time_rows events).filterMap (userOf ∘ Op.insertTime) = [] := by
    induction time_rows events with
    | nil => rfl
    | cons r rest ih => simp [List.filterMap, userOf, Function.comp, ih]
  have h2 : (user_rows events).filterMap (userOf ∘ Op.insertUser)
      = user_rows events := by
    induction user_rows events with
    | nil => rfl
    | cons r rest ih => simp [List.filterMap, userOf, Function.comp, ih]
  rw [h1, h2]
  simp

theorem loaderLoop_ok (func : String → Except String (List Op)) (num : Nat)
    (l : List (Nat × String))
    (h : ∀ p ∈ l, ∃ ops, func p.2 = Except.ok ops) :
    loaderLoop func num l = (l.flatMap (okTrace func num), none) := by
  induction l with
  | nil => rfl
  | cons p rest ih =>
    obtain ⟨ops, hops⟩ := h p (List.mem_cons_self _ _)
    have hrest := ih fun q hq => h q (List.mem_cons_of_mem _ hq)
    simp [loaderLoop, hops, okTrace, hrest, List.flatMap_cons]

theorem loaderLoop_fail (func : String → Except String (List Op)) (num : Nat)
    (pre : List (Nat × String)) (p : Nat × String) (post : List (Nat × String))
    (e : String)
    (hpre : ∀ q ∈ pre, ∃ ops, func q.2 = Except.ok ops)
    (hp : func p.2 = Except.error e) :
    loaderLoop func num (pre ++ p :: post)
      = (pre.flatMap (okTrace func num) ++ [Output.invoke p.2], some e) := by
  induction pre with
  | nil => simp [loaderLoop, hp]
  | cons q rest ih =>
    obtain ⟨ops, hops⟩ := hpre q (List.mem_cons_self _ _)
    have hrest := ih fun r hr => hpre r (List.mem_cons_of_mem _ hr)
    simp [loaderLoop, hops, okTrace, hrest, List.flatMap_cons]

theorem idxFrom_length {α : Type} (i : Nat) (l : List α) :
    (idxFrom i l).length = l.length := by
  induction l generalizing i with
  | nil => rfl
  | cons a rest ih => simp [idxFrom, ih]

theorem idxFrom_get {α : Type} (i : Nat) (l : List α) (k : Nat)
    (h : k < (idxFrom i l).length) (h' : k < l.length) :
    (idxFrom i l).get ⟨k, h⟩ = (i + k, l.get ⟨k, h'⟩) := by
  induction l generalizing i k with
  | nil => exact absurd h' (Nat.not_lt_zero k)
  | cons a rest ih =>
    cases k with
    | zero => rfl
    | succ k =>
      have hh : k < (idxFrom (i + 1) rest).length := by
        rw [idxFrom_length]
        exact Nat.lt_of_succ_lt_succ h'
      have hh' : k < rest.length := Nat.lt_of_succ_lt_succ h'
      calc (idxFrom i (a :: rest)).get ⟨k + 1, h⟩
          = (idxFrom (i + 1) rest).get ⟨k, hh⟩ := rfl
        _ = (i + 1 + k, rest.get ⟨k, hh'⟩) := ih (i + 1) k hh hh'
        _ = (i + (k + 1), (a :: rest).get ⟨k + 1, h'⟩) := by
            rw [show i + 1 + k = i + (k + 1) from by omega]
            exact rfl

/-! ### The claims -/

/-- C1, counterexample: the claim says the k-th retained event's Songplay
gets identifier k (1-based position counted after filtering).  On the file
[Home-page event, NextSong event] the single retained event — the first one
after filtering, so the claim demands identifier 1 — is inserted with
identifier 2, because the dataframe keeps its pre-filter index labels and the
script uses `index + 1`. -/
theorem C1_counterexample :
    retained [exEventHome, exEventNext] = [exEventNext] ∧
    (songplay_rows exStore [exEventHome, exEventNext]).map
        SongplayRow.songplay_id = [2] ∧
    ¬ (songplay_rows exStore [exEventHome, exEventNext]).map
        SongplayRow.songplay_id = [1] := by
  refine ⟨rfl, rfl, by decide⟩

/-- C1, amended: for every log file, the Event Record Extractor emits exactly
one Songplay insert per retained (page = "NextSong") event, and the
Songplay's sequential identifier equals the event's 1-based position within
the file counted BEFORE filtering (one plus its 0-based position among all
parsed events of the file). -/
theorem C1_songplay_identifier (st : Store) (events : List LogEvent) :
    (songplay_rows st events).length = (retained events).length ∧
    (songplay_rows st events).map SongplayRow.songplay_id
      = (retainedPositions 0 events).map fun i => i + 1 := by
  refine ⟨songplay_rows_length st events, ?_⟩
  unfold songplay_rows
  rw [List.map_map]
  have h1 : (SongplayRow.songplay_id ∘ songplayRowOf st)
      = fun p : Nat × LogEvent => p.1 + 1 := rfl
  rw [h1]
  have h2 : ((retainedIdx events).map fun p => p.1 + 1)
      = ((retainedIdx events).map Prod.fst).map fun i => i + 1 := by
    rw [List.map_map]; rfl
  rw [h2]
  have h3 : (retainedIdx events).map Prod.fst = retainedPositions 0 events :=
    idxFrom_filter_fst 0 events
  rw [h3]

/-- C2, counterexample: the claim says a nonexistent root directory makes the
discovery phase signal a NotFoundError rather than complete normally.  On a
filesystem where the root path does not exist, `process_data` completes
normally: it prints the found line with count 0, signals no error, and
processes nothing — `os.walk` with its default `onerror=None` silently
swallows the listing failure. -/
theorem C2_counterexample :
    process_data none "data/song_data" (fun _ => Except.ok [])
      = ([Output.foundLine "0 files found in data/song_data"], none) := rfl

/-- C2, amended: for every root directory path that does not exist, the
discovery phase of the Loader completes normally with an empty file list: it
prints the found line with count 0, attempts no file, and signals no
error. -/
theorem C2_missing_root (path : String)
    (func : String → Except String (List Op)) :
    process_data none path func
      = ([Output.foundLine ("0 files found in " ++ path)], none) := by
  simp only [process_data, discoverFiles, os_walk, List.flatMap_nil,
    List.length_nil, idxFrom, loaderLoop]
  rw [show (toString (0 : Nat) ++ " files found in " : String)
        = "0 files found in " from rfl]

/-- C6: for every song file, zero records make the Song Record Extractor fail
with an error (no record to index) and issue no inserts, while one or more
records make it issue exactly one Song insert and one Artist insert, both
projected verbatim from the first record only. -/
theorem C6_song_extractor :
    process_song_file [] = Except.error "IndexError: no record to index" ∧
    ∀ (r : SongRecord) (rest : List SongRecord),
      process_song_file (r :: rest)
        = Except.ok
            [Op.insertSong r.song_id r.title r.artist_id r.year r.duration,
             Op.insertArtist r.artist_id r.artist_name r.artist_location
               r.artist_latitude r.artist_longitude] :=
  ⟨rfl, fun _ _ => rfl⟩

/-- C8: for every log file, the `users` inserts appearing in the executed
trace are, in file order, exactly one per retained event, carrying that
event's user id, first name, last name, gender and level verbatim — no
in-memory deduplication, so two retained events of one user yield two
inserts. -/
theorem C8_user_inserts (st : Store) (events : List LogEvent) :
    (process_log_file st events).filterMap userOf
      = (retained events).map fun e =>
          { userId := e.userId, firstName := e.firstName,
            lastName := e.lastName, gender := e.gender, level := e.level } := by
  rw [filterMap_userOf_trace]
  rfl

/-- C10: for every retained event, the start_time placed in its Songplay
insert equals the start_time placed in its TimeEntity insert — both rows are
built, in the same order, from the same datetime conversion of the event's
millisecond ts field. -/
theorem C10_start_time_match (st : Store) (events : List LogEvent) :
    (time_rows events).map TimeRow.start_time
        = (retained events).map (fun e => toDatetimeNs e.ts) ∧
    (songplay_rows st events).map SongplayRow.start_time
        = (retained events).map (fun e => toDatetimeNs e.ts) := by
  constructor
  · rw [time_rows_eq, List.map_map]; rfl
  · unfold songplay_rows
    rw [List.map_map]
    have h : (SongplayRow.start_time ∘ songplayRowOf st)
        = fun p : Nat × LogEvent => toDatetimeNs p.2.ts := rfl
    rw [h]
    exact retainedIdx_map (fun e => toDatetimeNs e.ts) events

/-- C3: for every retained event, song/artist resolution yields a non-null
pair of identifiers if and only if the store holds a Song+Artist pair (joined
on the artist identifier) whose title, artist name and duration exactly equal
the event's song, artist and length fields; the emitted Songplay carries the
resolved pair, and when no exactly matching pair exists both identifiers in
the emitted Songplay are null. -/
theorem C3_resolution (st : Store) (e : LogEvent) (i : Nat) :
    (((resolve st e).1.isSome = true ∧ (resolve st e).2.isSome = true) ↔
      ∃ s a, s ∈ st.songs ∧ a ∈ st.artists ∧ a.artist_id = s.artist_id ∧
        s.title = e.song ∧ a.name = e.artist ∧ s.duration = e.length) ∧
    ((songplayRowOf st (i, e)).song_id = (resolve st e).1 ∧
      (songplayRowOf st (i, e)).artist_id = (resolve st e).2) ∧
    ((¬ ∃ s a, s ∈ st.songs ∧ a ∈ st.artists ∧ a.artist_id = s.artist_id ∧
        s.title = e.song ∧ a.name = e.artist ∧ s.duration = e.length) →
      (songplayRowOf st (i, e)).song_id = none ∧
        (songplayRowOf st (i, e)).artist_id = none) := by
  have hiff := song_select_isSome_iff st e.song e.artist e.length
  have hr := resolve_isSome st e
  refine ⟨?_, ⟨rfl, rfl⟩, ?_⟩
  · rw [hr.1, hr.2]
    constructor
    · intro h
      exact hiff.mp h.1
    · intro h
      exact ⟨hiff.mpr h, hiff.mpr h⟩
  · intro h
    have hnone : song_select st e.song e.artist e.length = none := by
      rcases hss : song_select st e.song e.artist e.length with _ | pr
      · rfl
      · exact absurd (hiff.mp (by rw [hss]; rfl)) h
    have hrn := resolve_of_none st e hnone
    constructor
    · show (resolve st e).1 = none
      rw [hrn]
    · show (resolve st e).2 = none
      rw [hrn]

/-- C4: for every log file, the number of Songplay inserts emitted equals the
number of parsed events whose page field equals "NextSong", and the total
number of inserts of any kind in the executed trace is three times that count
(one time insert, one user insert, one songplay insert per retained event) —
so events with any other page value produce no inserts at all. -/
theorem C4_filter_count (st : Store) (events : List LogEvent) :
    (songplay_rows st events).length
        = (events.filter fun e => e.page = "NextSong").length ∧
    ((process_log_file st events).filter Op.isInsert).length
        = 3 * (events.filter fun e => e.page = "NextSong").length := by
  have hret : (events.filter fun e => e.page = "NextSong") = retained events :=
    rfl
  rw [hret]
  refine ⟨songplay_rows_length st events, ?_⟩
  unfold process_log_file
  rw [List.filter_append, List.filter_append, List.length_append,
    List.length_append, filter_isInsert_pairs]
  have h1 : ((time_rows events).map Op.insertTime).filter Op.isInsert
      = (time_rows events).map Op.insertTime := by
    rw [List.filter_map]
    have hc : (Op.isInsert ∘ Op.insertTime) = fun _ : TimeRow => true := rfl
    rw [hc, List.filter_true]
  have h2 : ((user_rows events).map Op.insertUser).filter Op.isInsert
      = (user_rows events).map Op.insertUser := by
    rw [List.filter_map]
    have hc : (Op.isInsert ∘ Op.insertUser) = fun _ : UserRow => true := rfl
    rw [hc, List.filter_true]
  rw [h1, h2, List.length_map, List.length_map]
  have ht : (time_rows events).length = (retained events).length := by
    rw [time_rows_eq, List.length_map]
  have hu : (user_rows events).length = (retained events).length := by
    unfold user_rows
    rw [List.length_map]
  rw [ht, hu, retainedIdx_length]
  ring

/-- C5: for every log file, the TimeEntity emitted for each retained event is
the deterministic decomposition `timeEntityOfMs` of that event's millisecond
timestamp into (converted timestamp, hour, day, ISO week number, month, year,
weekday with Monday = 0); in particular timestamp 1541207073796 ms decomposes
to the fixed tuple (hour 1, day 3, week 44, month 11, year 2018, weekday 5 =
Saturday), i.e. 2018-11-03 01:04:33.796 UTC. -/
theorem C5_time_decomposition :
    (∀ events : List LogEvent,
        time_rows events = (retained events).map fun e => timeEntityOfMs e.ts) ∧
    timeEntityOfMs 1541207073796
      = { start_time := 1541207073796000000, hour := 1, day := 3, week := 44,
          month := 11, year := 2018, weekday := 5 } :=
  ⟨time_rows_eq, by decide⟩

/-- C7: the Loader processes the discovered files strictly in discovery
order; after the N-th successful file (N counted from 1 by the enumeration)
it has invoked the extractor, executed its statements, committed, and printed
exactly the progress line "N/M files processed."; and if the extractor fails
on file K, the trace ends at file K's invocation — no later file is attempted
and no further progress line is printed. -/
theorem C7_loader_progress :
    (∀ (func : String → Except String (List Op)) (num : Nat)
        (l : List (Nat × String)),
        (∀ p ∈ l, ∃ ops, func p.2 = Except.ok ops) →
        loaderLoop func num l = (l.flatMap (okTrace func num), none)) ∧
    (∀ (func : String → Except String (List Op)) (num : Nat)
        (pre : List (Nat × String)) (p : Nat × String)
        (post : List (Nat × String)) (e : String),
        (∀ q ∈ pre, ∃ ops, func q.2 = Except.ok ops) →
        func p.2 = Except.error e →
        loaderLoop func num (pre ++ p :: post)
          = (pre.flatMap (okTrace func num) ++ [Output.invoke p.2], some e)) ∧
    (∀ (files : List String) (k : Nat) (h : k < (idxFrom 1 files).length)
        (h' : k < files.length),
        (idxFrom 1 files).get ⟨k, h⟩ = (1 + k, files.get ⟨k, h'⟩)) ∧
    (∀ (fs : Option DirTree) (path : String)
        (func : String → Except String (List Op)),
        process_data fs path func
          = (Output.foundLine (toString (discoverFiles fs path).length
                ++ " files found in " ++ path)
              :: (loaderLoop func (discoverFiles fs path).length
                    (idxFrom 1 (discoverFiles fs path))).1,
             (loaderLoop func (discoverFiles fs path).length
                (idxFrom 1 (discoverFiles fs path))).2)) :=
  ⟨loaderLoop_ok, loaderLoop_fail, idxFrom_get 1, fun _ _ _ => rfl⟩

/-- C9, counterexample: the claim quantifies over every log file in which no
event has page "NextSong", which includes the file that parses to zero
events — and there no event has any page at all, so the claim's hypothesis
holds vacuously.  On that file the extractor raises a KeyError at the page
filter (the empty dataframe has no columns) instead of completing, and the
loader aborts at the invocation: no commit, no progress line. -/
theorem C9_counterexample :
    (∀ e ∈ ([] : List LogEvent), ¬ e.page = "NextSong") ∧
    process_log_file_run exStore [] = Except.error "KeyError: page" ∧
    loaderLoop (fun _ => process_log_file_run exStore []) 1 [(1, "empty.json")]
      = ([Output.invoke "empty.json"], some "KeyError: page") :=
  ⟨fun e he => absurd he (List.not_mem_nil e), rfl, rfl⟩

/-- C9, amended: for every log file that parses to at least one event and in
which no event has page "NextSong", the Event Record Extractor completes
without error and issues zero statements of any kind, and the Loader still
commits after that file and counts it in a progress line before moving on.
(A log file with zero parsed records instead raises a KeyError at the page
filter before any statement.) -/
theorem C9_no_retained (st : Store) (events : List LogEvent)
    (hne : events ≠ [])
    (h : ∀ e ∈ events, ¬ e.page = "NextSong") :
    process_log_file_run st events = Except.ok [] ∧
    ∀ (num i : Nat) (f : String) (rest : List (Nat × String)),
      loaderLoop (fun _ => process_log_file_run st events) num ((i, f) :: rest)
        = (Output.invoke f :: Output.commit ::
            Output.progressLine (progressMsg i num) ::
            (loaderLoop (fun _ => process_log_file_run st events) num rest).1,
           (loaderLoop (fun _ => process_log_file_run st events) num
             rest).2) := by
  have hret : retained events = [] := by
    unfold retained
    rw [List.filter_eq_nil_iff]
    intro e he
    simp [h e he]
  have hidx : retainedIdx events = [] := by
    unfold retainedIdx
    rw [List.filter_eq_nil_iff]
    intro p hp
    simp [h p.2 (mem_idxFrom_snd hp)]
  have hplf : process_log_file st events = [] := by
    unfold process_log_file
    rw [hidx]
    have h1 : time_rows events = [] := by
      rw [time_rows_eq, hret]
      rfl
    have h2 : user_rows events = [] := by
      unfold user_rows
      rw [hret]
      rfl
    rw [h1, h2]
    rfl
  have hrun : process_log_file_run st events = Except.ok [] := by
    obtain ⟨e0, rest0, rfl⟩ := List.exists_cons_of_ne_nil hne
    rw [show process_log_file_run st (e0 :: rest0)
          = Except.ok (process_log_file st (e0 :: rest0)) from rfl, hplf]
  refine ⟨hrun, ?_⟩
  intro num i f rest
  simp [loaderLoop, hrun]

/-- C9, witness: a file holding one Home-page event runs to an empty trace
without error, and the loader, fed that file as file 1 of 1, commits and
prints the "1/1 files processed." line. -/
theorem C9_no_retained_witness :
    process_log_file_run exStore [exEventHome] = Except.ok [] ∧
    loaderLoop (fun _ => process_log_file_run exStore [exEventHome]) 1
        [(1, "2018-11-01-events.json")]
      = ([Output.invoke "2018-11-01-events.json", Output.commit,
          Output.progressLine (progressMsg 1 1)], none) := by
  have h := C9_no_retained exStore [exEventHome] (List.cons_ne_nil _ _)
    (by intro e he; simp at he; rw [he]; decide)
  refine ⟨h.1, ?_⟩
  have h2 := h.2 1 1 "2018-11-01-events.json" []
  simpa [loaderLoop] using h2

end ETL
